import Mathlib

/-!
Verification of the CellUniverse / cellanneal driver (`src/main.py` and
`src/global_optimization/CellUniverse.py`) against its design document.

The embedding models the windowed global-optimization driver of `main`:
the window iteration `for window_start in range(1 - window, len(realimages))`,
the per-window setup guarded by `window_end <= len(realimages)` (forward copy,
padding, synthetic image, distance map, auto-temperature), the unconditional
`global_optimize` dispatch for `window_start >= sim_start`, and the commit of
frame `window_start` once it is nonnegative.  Python locals that may be read
while unbound (the `pad` variable) are modelled with `Option`; runtime errors
are modelled with `Except`.
-/

deriving instance DecidableEq for Except

namespace CellUniverse

/-- Observable actions performed by one iteration of the window loop of
`main` (main.py:283-323). -/
inductive Event : Type
  /-- `lineage.copy_forward()` (main.py:290), tagged with `window_end`. -/
  | copyForward (windowEnd : ℤ)
  /-- `np.pad` applied to the newly admitted frame (main.py:292). -/
  | padApply (frameIdx : ℤ)
  /-- `generate_synthetic_image` for the newly admitted frame (main.py:294). -/
  | synth (frameIdx : ℤ)
  /-- distance map computed for the newly admitted frame (main.py:298-302). -/
  | distCompute (frameIdx : ℤ)
  /-- initial `auto_temp_schedule` call (main.py:303-308). -/
  | autoTempInit
  /-- `global_optimize` dispatched for the window `[windowStart, windowEnd)`
  (main.py:315-320). -/
  | dispatch (windowStart windowEnd : ℤ)
  /-- `save_lineage` / `save_output` for frame `frameIdx` (main.py:321-323). -/
  | commit (frameIdx : ℕ)
deriving DecidableEq, Repr

/-- Runtime failure of the window loop. -/
inductive DriverError : Type
  /-- Python `UnboundLocalError`: `pad` is read at main.py:291 but only bound
  when the simulation config has a `padding` key (main.py:270-271). -/
  | unboundPad
deriving DecidableEq, Repr

/-- The values taken by `window_start`: Python `range(1 - window, len(realimages))`
(main.py:283).  `W` is the configured window size, `N` the number of frames. -/
def windowStarts (W N : ℕ) : List ℤ :=
  (List.range (N + W - 1)).map (fun i : ℕ => 1 - (W : ℤ) + (i : ℤ))

/-- The events of one loop iteration at `window_start = ws`, assuming the
`pad` local holds `p`.  Mirrors main.py:284-323: the setup block runs only
when `window_end <= N`; the `global_optimize` dispatch (main.py:315) and the
commit (main.py:321) are outside that guard.  The driver models the default
`auto_meth = 'none'`, so the re-calibration branch at main.py:309 never fires. -/
def stepEvents (p : ℤ) (useDist : Bool) (simStart : ℤ) (W N : ℕ)
    (autoTemp : Bool) (ws : ℤ) : List Event :=
  (if ws + W ≤ N then
    (if simStart ≤ ws ∧ 1 < ws + W then [Event.copyForward (ws + W)] else [])
      ++ (if 0 < p then [Event.padApply (ws + W - 1)] else [])
      ++ [Event.synth (ws + W - 1)]
      ++ (if useDist then [Event.distCompute (ws + W - 1)] else [])
      ++ (if autoTemp ∧ ws + W = 1 then [Event.autoTempInit] else [])
  else [])
    ++ (if simStart ≤ ws then [Event.dispatch ws (ws + W)] else [])
    ++ (if 0 ≤ ws then [Event.commit ws.toNat] else [])

/-- One loop iteration.  `pad?` is the `pad` local: `none` when the simulation
config lacks a `padding` key.  Reading it inside the setup block
(main.py:291) raises when it is unbound; outside the setup block it is never
read, so no error can occur there. -/
def driverStep (pad? : Option ℤ) (useDist : Bool) (simStart : ℤ) (W N : ℕ)
    (autoTemp : Bool) (ws : ℤ) : Except DriverError (List Event) :=
  if ws + W ≤ N then
    match pad? with
    | none => Except.error DriverError.unboundPad
    | some p => Except.ok (stepEvents p useDist simStart W N autoTemp ws)
  else Except.ok (stepEvents 0 useDist simStart W N autoTemp ws)

/-- Runs the window loop over a list of `window_start` values, concatenating
events; an exception aborts the remainder of the loop. -/
def driverLoop (pad? : Option ℤ) (useDist : Bool) (simStart : ℤ) (W N : ℕ)
    (autoTemp : Bool) : List ℤ → Except DriverError (List Event)
  | [] => Except.ok []
  | ws :: rest =>
    match driverStep pad? useDist simStart W N autoTemp ws with
    | Except.error e => Except.error e
    | Except.ok evs =>
      match driverLoop pad? useDist simStart W N autoTemp rest with
      | Except.error e => Except.error e
      | Except.ok more => Except.ok (evs ++ more)

/-- The whole window loop of `main` (main.py:283-323). -/
def runDriver (pad? : Option ℤ) (useDist : Bool) (simStart : ℤ) (W N : ℕ)
    (autoTemp : Bool) : Except DriverError (List Event) :=
  driverLoop pad? useDist simStart W N autoTemp (windowStarts W N)

/-- Concatenation of the lists produced by `f` over a list (Python's event
stream across loop iterations). -/
def listBind {α β : Type} (f : α → List β) : List α → List β
  | [] => []
  | x :: xs => f x ++ listBind f xs

/-- Frame indices committed (saved via `save_lineage`/`save_output`) in an
event stream, in order. -/
def committedFrames (evs : List Event) : List ℕ :=
  evs.filterMap (fun e =>
    match e with
    | Event.commit i => some i
    | _ => none)

/-- Frame indices for which a synthetic image was generated, in order. -/
def synthFrames (evs : List Event) : List ℤ :=
  evs.filterMap (fun e =>
    match e with
    | Event.synth i => some i
    | _ => none)

/-- Frame indices for which a distance map was computed, in order. -/
def distFrames (evs : List Event) : List ℤ :=
  evs.filterMap (fun e =>
    match e with
    | Event.distCompute i => some i
    | _ => none)

/-- The `(window_start, window_end)` pairs for which `global_optimize` was
dispatched, in order. -/
def dispatchPairs (evs : List Event) : List (ℤ × ℤ) :=
  evs.filterMap (fun e =>
    match e with
    | Event.dispatch s t => some (s, t)
    | _ => none)

/-- Committed frames of a driver run; a run that died with an exception
committed nothing after the point of failure (and the exception propagates
before the first commit of the failing iteration). -/
def committedOf (r : Except DriverError (List Event)) : List ℕ :=
  match r with
  | Except.ok evs => committedFrames evs
  | Except.error _ => []

/-- Dispatch pairs of a driver run. -/
def dispatchesOf (r : Except DriverError (List Event)) : List (ℤ × ℤ) :=
  match r with
  | Except.ok evs => dispatchPairs evs
  | Except.error _ => []

/-- Distance-map frames of a driver run. -/
def distFramesOf (r : Except DriverError (List Event)) : List ℤ :=
  match r with
  | Except.ok evs => distFrames evs
  | Except.error _ => []

/-! ### Simulated-annealing configuration scaling (main.py:237-256) -/

/-- The ten perturbation keys rescaled before a global-optimization run
(main.py:241-252). -/
def keysToModify : List String :=
  ["modification.x.mu",
   "modification.y.mu",
   "modification.width.mu",
   "modification.length.mu",
   "modification.rotation.mu",
   "modification.x.sigma",
   "modification.y.sigma",
   "modification.width.sigma",
   "modification.length.sigma",
   "modification.rotation.sigma"]

/-- Failure of the configuration scaling loop. -/
inductive ScaleError : Type
  /-- Python `ZeroDivisionError` from `value / sa_config["iteration_per_cell"]`
  (main.py:256) when `iteration_per_cell` is zero. -/
  | zeroDivision
deriving DecidableEq, Repr

/-- The loop `for key, value in sa_config["perturbation"].items()`
(main.py:254-256): every entry whose key is in `keysToModify` is divided by
`iteration_per_cell`; other entries are left unchanged.  Python raises
`ZeroDivisionError` the first time a division by zero is executed, i.e. only
when a matching key is actually present. -/
def scalePerturbation : List (String × ℚ) → ℚ → Except ScaleError (List (String × ℚ))
  | [], _ => Except.ok []
  | (k, v) :: rest, ipc =>
    if k ∈ keysToModify then
      if ipc = 0 then Except.error ScaleError.zeroDivision
      else
        match scalePerturbation rest ipc with
        | Except.error e => Except.error e
        | Except.ok r => Except.ok ((k, v / ipc) :: r)
    else
      match scalePerturbation rest ipc with
      | Except.error e => Except.error e
      | Except.ok r => Except.ok ((k, v) :: r)

/-- The slice of the configuration dictionary that the modelled driver code
reads.  `padding` is `none` when the simulation section has no `padding` key
(main.py:270). -/
structure Config : Type where
  cellType : String
  pixelsPerMicron : ℚ
  perturbation : List (String × ℚ)
  iteration_per_cell : ℚ
  window_size : ℕ
  padding : Option ℤ
  distanceCostDivisor : ℚ
deriving DecidableEq, Repr

/-- `sa_config`: a deep copy of the loaded configuration with the perturbation
entries rescaled (main.py:238-256).  The deep copy is modelled by constructing
a new record, leaving the argument untouched. -/
def deriveSaConfig (cfg : Config) : Except ScaleError Config :=
  match scalePerturbation cfg.perturbation cfg.iteration_per_cell with
  | Except.error e => Except.error e
  | Except.ok p => Except.ok { cfg with perturbation := p }

/-! ### Input file discovery (main.py:125-145 and CellUniverse.py:13-35) -/

/-- Failure of input-file discovery. -/
inductive InputError : Type
  /-- `frame_first > frame_last` with `frame_last >= 0` (main.py:129-130). -/
  | invalidInterval
  /-- `frame_first < 0` (main.py:131-132). -/
  | negativeFirst
  /-- `Input file not found` raised for frame `i` (main.py:144,
  CellUniverse.py:29). -/
  | notFound (i : ℤ)
deriving DecidableEq, Repr

/-- The body of `for i in count(args.frame_first)` in `get_inputfiles`
(main.py:134-144).  `ex i` tells whether the file for frame `i` exists.  The
`count` iterator is unbounded, so the recursion carries explicit fuel; all
results below are stated with fuel past the loop's actual exit point. -/
def inputLoop (ex : ℤ → Bool) (last first : ℤ) : ℕ → ℤ → List ℤ → Except InputError (List ℤ)
  | 0, i, _ => Except.error (InputError.notFound i)
  | fuel + 1, i, acc =>
    if ex i then
      if i = last then Except.ok (acc ++ [i])
      else inputLoop ex last first fuel (i + 1) (acc ++ [i])
    else if last < 0 ∧ first ≠ i then Except.ok acc
    else Except.error (InputError.notFound i)

/-- `get_inputfiles` (main.py:125-145): interval validation followed by the
collection loop.  Returns the list of frame indices whose files were found. -/
def get_inputfiles (ex : ℤ → Bool) (first last : ℤ) (fuel : ℕ) : Except InputError (List ℤ) :=
  if first > last ∧ 0 ≤ last then Except.error InputError.invalidInterval
  else if first < 0 then Except.error InputError.negativeFirst
  else inputLoop ex last first fuel first []

/-- Whether every z-slice file of frame `i` exists (the inner `for z in
range(z_slices)` loop of CellUniverse.py:21-29; the first missing slice
raises, discarding the partial stack). -/
def zStackExists (exz : ℤ → ℕ → Bool) (zSlices : ℕ) (i : ℤ) : Bool :=
  (List.range zSlices).all (exz i)

/-- The `while last_frame == -1 or i <= last_frame` loop of
`get_image_file_paths` (CellUniverse.py:18-31).  Returns the collected frame
indices and, when the loop was exited by the `ValueError`, the frame that
raised it. -/
def stackLoop (exz : ℤ → ℕ → Bool) (zSlices : ℕ) (last : ℤ) : ℕ → ℤ → List ℤ → List ℤ × Option ℤ
  | 0, _, acc => (acc, none)
  | fuel + 1, i, acc =>
    if last = -1 ∨ i ≤ last then
      if zStackExists exz zSlices i then stackLoop exz zSlices last fuel (i + 1) (acc ++ [i])
      else (acc, some i)
    else (acc, none)

/-- `get_image_file_paths` (CellUniverse.py:13-35): the collection loop with
the `ValueError` caught; the error is re-raised only when an explicit last
frame was requested and the collected stack is incomplete. -/
def get_image_file_paths (exz : ℤ → ℕ → Bool) (zSlices : ℕ) (first last : ℤ)
    (fuel : ℕ) : Except InputError (List ℤ) :=
  match stackLoop exz zSlices last fuel first [] with
  | (stack, some i) =>
    if last ≠ -1 ∧ (stack.length : ℤ) ≠ last - first + 1 then Except.error (InputError.notFound i)
    else Except.ok stack
  | (stack, none) => Except.ok stack

/-! ### Seed selection, lineage header, and the body of `main` -/

/-- Seed selection (main.py:216-218): the wall-clock milliseconds reduced mod
`2 ** 32`, overridden by an explicitly supplied `--seed`. -/
def effectiveSeed (startMs : ℕ) (argSeed : Option ℕ) : ℕ :=
  match argSeed with
  | some s => s
  | none => startMs % 2 ^ 32

/-- The lineage CSV header columns (main.py:228-230): `['file', 'name']`,
extended for the bacilli cell type. -/
def lineageHeader (cellType : String) : List String :=
  ["file", "name"] ++
    (if cellType = "bacilli"
      then ["x", "y", "width", "length", "rotation", "split_alpha", "opacity"]
      else [])

/-- The header line printed to `lineage.csv` before any frame record
(main.py:231): `','.join(header)`. -/
def headerLine (cellType : String) : String :=
  String.intercalate "," (lineageHeader cellType)

/-- The command-line arguments the modelled part of `main` reads. -/
structure Args : Type where
  auto_temp : ℤ
  start_temp : Option ℚ
  end_temp : Option ℚ
  dist : Bool
  global_optimization : Bool
  frame_first : ℤ
  frame_last : ℤ
  continue_from : ℤ
  seed : Option ℕ
deriving DecidableEq, Repr

/-- The guard at main.py:175: a manually supplied start or end temperature
conflicts with `auto_temp == 1`. -/
def tempArgsConflict (a : Args) : Bool :=
  (a.start_temp.isSome || a.end_temp.isSome) && (a.auto_temp == 1)

/-- Failure of a `main` run. -/
inductive MainError : Type
  /-- the exception raised at main.py:176. -/
  | tempConflict
  /-- `get_inputfiles` failed. -/
  | inputError (e : InputError)
  /-- `ZeroDivisionError` while scaling the perturbation config. -/
  | scaleError
  /-- `UnboundLocalError` on `pad` inside the window loop. -/
  | unboundPad
deriving DecidableEq, Repr

/-- What a completed `main` run produced: the lines of `lineage.csv` in write
order, the window-loop event stream, and the seed in effect. -/
structure MainOutput : Type where
  log : List String
  events : List CellUniverse.Event
  seed : ℕ
deriving DecidableEq, Repr

/-- The modelled body of `main` (main.py:173-327) in execution order: the
temperature-argument guard, seed selection, input discovery, the lineage
header, and — on the global-optimization path — configuration scaling followed
by the window loop.  External collaborators are parameters: `ex` is file
existence, `rec seed i` the `save_lineage` record lines of frame `i`
(lineage_funcs is not part of the repository slice; per the design document
they are a deterministic function of the run seed), and `localRec seed` the
record lines of the excluded local-optimization path. -/
def mainRun (args : Args) (cfg : Config) (ex : ℤ → Bool)
    (rec : ℕ → ℕ → List String) (localRec : ℕ → List String)
    (startMs : ℕ) (fuel : ℕ) : Except MainError MainOutput :=
  if tempArgsConflict args then Except.error MainError.tempConflict
  else
    let seed := effectiveSeed startMs args.seed
    match get_inputfiles ex args.frame_first args.frame_last fuel with
    | Except.error e => Except.error (MainError.inputError e)
    | Except.ok files =>
      let hdr := headerLine cfg.cellType
      if args.global_optimization then
        match deriveSaConfig cfg with
        | Except.error _ => Except.error MainError.scaleError
        | Except.ok saCfg =>
          let simStart := args.continue_from - args.frame_first
          match CellUniverse.runDriver cfg.padding args.dist simStart
              saCfg.window_size files.length (args.auto_temp == 1) with
          | Except.error CellUniverse.DriverError.unboundPad =>
            Except.error MainError.unboundPad
          | Except.ok evs =>
            Except.ok
              { log := hdr :: CellUniverse.listBind (rec seed) (CellUniverse.committedFrames evs)
                events := evs
                seed := seed }
      else Except.ok { log := hdr :: localRec seed, events := [], seed := seed }

/-- Synthetic-image frames of a driver run. -/
def synthFramesOf (r : Except DriverError (List Event)) : List ℤ :=
  match r with
  | Except.ok evs => synthFrames evs
  | Except.error _ => []

/-! ### The distance-based objective map (main.py:297-302)

`distance_transform_edt(realimage < .5)` assigns each pixel of the mask
`realimage < 0.5` its Euclidean distance to the closest pixel outside the
mask, and `0` to pixels outside the mask.  Images are `h × w` grids of
intensities.  The square root forces the map into `ℝ`; its integer radicand
`edtSqVal` stays computable. -/

/-- Squared Euclidean distance between two pixel coordinates. -/
def sqDistPix {h w : ℕ} (p q : Fin h × Fin w) : ℕ :=
  ((p.1 : ℤ) - q.1).natAbs ^ 2 + ((p.2 : ℤ) - q.2).natAbs ^ 2

/-- The pixels outside the transform input mask, i.e. where the real image is
at least `0.5`. -/
def bgPixels {h w : ℕ} (img : Fin h → Fin w → ℚ) : Finset (Fin h × Fin w) :=
  Finset.univ.filter (fun q => ¬ img q.1 q.2 < 1 / 2)

/-- Squared Euclidean distance transform value at pixel `p`: the minimal
squared distance from `p` to a pixel where the image is at least `0.5`, and
`0` at such pixels themselves.  On an image with no such pixel the transform
is left at `0` (the transform is degenerate there). -/
def edtSqVal {h w : ℕ} (img : Fin h → Fin w → ℚ) (p : Fin h × Fin w) : ℕ :=
  if img p.1 p.2 < 1 / 2 then (((bgPixels img).image (sqDistPix p)).min.untop' 0) else 0

/-- The per-frame distance map (main.py:298-301): the Euclidean distance
transform of `realimage < 0.5`, divided by
`distanceCostDivisor * pixelsPerMicron`, then incremented by `1`. -/
noncomputable def distmapOf {h w : ℕ} (img : Fin h → Fin w → ℚ)
    (divisor ppm : ℚ) (p : Fin h × Fin w) : ℝ :=
  Real.sqrt (edtSqVal img p) / ((divisor : ℝ) * (ppm : ℝ)) + 1

/-! ### Concrete instances used as witnesses and counterexamples -/

/-- A perturbation section with two modifiable keys and one unrelated key. -/
def pertEx : List (String × ℚ) :=
  [("modification.x.mu", 3), ("modification.width.sigma", 4), ("background.color", 5)]

/-- A configuration with `iteration_per_cell = 2`. -/
def cfgEx : Config :=
  { cellType := "bacilli", pixelsPerMicron := 1, perturbation := pertEx,
    iteration_per_cell := 2, window_size := 3, padding := some 0,
    distanceCostDivisor := 1 }

/-- The expected scaled configuration for `cfgEx`. -/
def saCfgEx : Config :=
  { cfgEx with
    perturbation :=
      [("modification.x.mu", 3 / 2), ("modification.width.sigma", 2), ("background.color", 5)] }

/-- A perturbation section containing a modifiable key. -/
def pertZero : List (String × ℚ) :=
  [("modification.x.mu", 1 / 2), ("modification.y.mu", 0)]

/-- A configuration with `iteration_per_cell = 0` (the no-perturbation
scenario of the design document). -/
def cfgC4 : Config :=
  { cellType := "bacilli", pixelsPerMicron := 1, perturbation := pertZero,
    iteration_per_cell := 0, window_size := 1, padding := some 0,
    distanceCostDivisor := 1 }

/-- Arguments for a single-frame global-optimization run with defaults
(`auto_temp = 1`, no manual temperatures). -/
def argsC4 : Args :=
  { auto_temp := 1, start_temp := none, end_temp := none, dist := false,
    global_optimization := true, frame_first := 0, frame_last := 0,
    continue_from := 0, seed := some 7 }

/-- Only the frame-0 input file exists. -/
def exSingle : ℤ → Bool := fun i => i == 0

/-- No input file exists. -/
def exNone : ℤ → Bool := fun _ => false

/-- Input files exist exactly for frames below 2. -/
def exLt2 : ℤ → Bool := fun i => decide (i < 2)

/-- No z-stack input file exists. -/
def exzNone : ℤ → ℕ → Bool := fun _ _ => false

/-- A well-formed bacilli configuration with window size 1. -/
def cfgC7 : Config :=
  { cellType := "bacilli", pixelsPerMicron := 1, perturbation := [],
    iteration_per_cell := 1, window_size := 1, padding := some 0,
    distanceCostDivisor := 1 }

/-- Arguments for a completing single-frame global-optimization run. -/
def argsC7 : Args :=
  { auto_temp := 0, start_temp := none, end_temp := none, dist := false,
    global_optimization := true, frame_first := 0, frame_last := 0,
    continue_from := 0, seed := some 1 }

/-- A sample per-frame record function. -/
def recEx : ℕ → ℕ → List String := fun _ i => ["frame" ++ toString i]

/-- The record function of the unused local-optimization path. -/
def noLocalRec : ℕ → List String := fun _ => []

/-- The output of the run `mainRun argsC7 cfgC7 exSingle recEx noLocalRec 0 3`. -/
def outC7 : MainOutput :=
  { log := ["file,name,x,y,width,length,rotation,split_alpha,opacity", "frame0"]
    events := [Event.synth 0, Event.dispatch 0 1, Event.commit 0]
    seed := 1 }

/-- `argsC7` with an explicit seed of 42. -/
def argsC8 : Args := { argsC7 with seed := some 42 }

/-- Arguments with `auto_temp = 1` and a manually supplied start temperature. -/
def argsC10 : Args :=
  { auto_temp := 1, start_temp := some 5, end_temp := none, dist := false,
    global_optimization := true, frame_first := 0, frame_last := 0,
    continue_from := 0, seed := none }

/-- A 1 × 1 image whose only pixel is bright (outside the transform mask). -/
def imgOne : Fin 1 → Fin 1 → ℚ := fun _ _ => 1

/-- The only pixel of a 1 × 1 image. -/
def pixOne : Fin 1 × Fin 1 := (0, 0)

/-! ### General lemmas about `listBind` -/

theorem listBind_append {α β : Type} (f : α → List β) (l₁ l₂ : List α) :
    listBind f (l₁ ++ l₂) = listBind f l₁ ++ listBind f l₂ := by
  induction l₁ with
  | nil => simp [listBind]
  | cons x xs ih => simp [listBind, ih]

theorem listBind_map {α β γ : Type} (f : β → List γ) (g : α → β) (l : List α) :
    listBind f (l.map g) = listBind (fun x => f (g x)) l := by
  induction l with
  | nil => rfl
  | cons x xs ih => simp [listBind, ih]

theorem listBind_congr {α β : Type} (f g : α → List β) (l : List α)
    (h : ∀ x ∈ l, f x = g x) : listBind f l = listBind g l := by
  induction l with
  | nil => rfl
  | cons x xs ih =>
    simp only [listBind, h x (List.mem_cons_self x xs)]
    rw [ih fun y hy => h y (List.mem_cons_of_mem x hy)]

theorem listBind_const_nil {α β : Type} (l : List α) :
    listBind (fun _ => ([] : List β)) l = [] := by
  induction l with
  | nil => rfl
  | cons x xs ih => simp [listBind, ih]

theorem listBind_singleton {α β : Type} (g : α → β) (l : List α) :
    listBind (fun x => [g x]) l = l.map g := by
  induction l with
  | nil => rfl
  | cons x xs ih => simp [listBind, ih]

theorem filterMap_listBind {α β γ : Type} (g : β → Option γ) (f : α → List β) (l : List α) :
    (listBind f l).filterMap g = listBind (fun x => (f x).filterMap g) l := by
  induction l with
  | nil => rfl
  | cons x xs ih => simp [listBind, List.filterMap_append, ih]

theorem filterMap_eq_listBind {α β : Type} (g : α → Option β) (l : List α) :
    l.filterMap g = listBind (fun x => (g x).toList) l := by
  induction l with
  | nil => rfl
  | cons x xs ih =>
    cases h : g x <;> simp [listBind, List.filterMap_cons, h, ih]

/-! ### Per-iteration event extraction -/

theorem committedFrames_stepEvents (p : ℤ) (u : Bool) (s : ℤ) (W N : ℕ) (a : Bool) (ws : ℤ) :
    committedFrames (stepEvents p u s W N a ws) = if 0 ≤ ws then [ws.toNat] else [] := by
  simp only [stepEvents, committedFrames]
  split_ifs <;> simp

theorem synthFrames_stepEvents (p : ℤ) (u : Bool) (s : ℤ) (W N : ℕ) (a : Bool) (ws : ℤ) :
    synthFrames (stepEvents p u s W N a ws) = if ws + W ≤ N then [ws + W - 1] else [] := by
  simp only [stepEvents, synthFrames]
  split_ifs <;> simp

theorem distFrames_stepEvents (p : ℤ) (u : Bool) (s : ℤ) (W N : ℕ) (a : Bool) (ws : ℤ) :
    distFrames (stepEvents p u s W N a ws)
      = if ws + W ≤ N then (if u then [ws + W - 1] else []) else [] := by
  simp only [stepEvents, distFrames]
  split_ifs <;> simp_all

theorem dispatchPairs_stepEvents (p : ℤ) (u : Bool) (s : ℤ) (W N : ℕ) (a : Bool) (ws : ℤ) :
    dispatchPairs (stepEvents p u s W N a ws) = if s ≤ ws then [(ws, ws + W)] else [] := by
  simp only [stepEvents, dispatchPairs]
  split_ifs <;> simp

theorem stepEvents_out_of_range (p q : ℤ) (u : Bool) (s : ℤ) (W N : ℕ) (a : Bool) (ws : ℤ)
    (h : ¬ ws + (W : ℤ) ≤ (N : ℤ)) :
    stepEvents p u s W N a ws = stepEvents q u s W N a ws := by
  simp [stepEvents, h]

theorem driverStep_some (p : ℤ) (u : Bool) (s : ℤ) (W N : ℕ) (a : Bool) (ws : ℤ) :
    driverStep (some p) u s W N a ws = Except.ok (stepEvents p u s W N a ws) := by
  by_cases h : ws + (W : ℤ) ≤ (N : ℤ)
  · simp [driverStep, h]
  · simp only [driverStep, if_neg h]
    rw [stepEvents_out_of_range 0 p u s W N a ws h]

theorem driverLoop_some (p : ℤ) (u : Bool) (s : ℤ) (W N : ℕ) (a : Bool) (l : List ℤ) :
    driverLoop (some p) u s W N a l = Except.ok (listBind (stepEvents p u s W N a) l) := by
  induction l with
  | nil => rfl
  | cons x xs ih => simp [driverLoop, driverStep_some, ih, listBind]

theorem runDriver_some (p : ℤ) (u : Bool) (s : ℤ) (W N : ℕ) (a : Bool) :
    runDriver (some p) u s W N a
      = Except.ok (listBind (stepEvents p u s W N a) (windowStarts W N)) :=
  driverLoop_some p u s W N a (windowStarts W N)

theorem committedFrames_listBind {α : Type} (f : α → List Event) (l : List α) :
    committedFrames (listBind f l) = listBind (fun x => committedFrames (f x)) l :=
  filterMap_listBind _ f l

theorem synthFrames_listBind {α : Type} (f : α → List Event) (l : List α) :
    synthFrames (listBind f l) = listBind (fun x => synthFrames (f x)) l :=
  filterMap_listBind _ f l

theorem distFrames_listBind {α : Type} (f : α → List Event) (l : List α) :
    distFrames (listBind f l) = listBind (fun x => distFrames (f x)) l :=
  filterMap_listBind _ f l

theorem dispatchPairs_listBind {α : Type} (f : α → List Event) (l : List α) :
    dispatchPairs (listBind f l) = listBind (fun x => dispatchPairs (f x)) l :=
  filterMap_listBind _ f l

/-! ### Decompositions of the `window_start` range -/

theorem windowStarts_mem (W N : ℕ) (z : ℤ) :
    z ∈ windowStarts W N ↔ 1 - (W : ℤ) ≤ z ∧ z < N := by
  simp only [windowStarts, List.mem_map, List.mem_range]
  constructor
  · rintro ⟨i, hi, rfl⟩
    omega
  · rintro ⟨h1, h2⟩
    exact ⟨(z - (1 - (W : ℤ))).toNat, by omega, by omega⟩

theorem windowStarts_head_split (W N : ℕ) (hW : 1 ≤ W) :
    windowStarts W N
      = ((List.range (W - 1)).map (fun i : ℕ => 1 - (W : ℤ) + (i : ℤ)))
        ++ ((List.range N).map (fun i : ℕ => (i : ℤ))) := by
  have h : N + W - 1 = (W - 1) + N := by omega
  rw [windowStarts, h, List.range_add, List.map_append, List.map_map]
  congr 1
  refine List.map_congr_left fun i _ => ?_
  simp only [Function.comp_apply]
  omega

theorem windowStarts_tail_split (W N : ℕ) (hW : 1 ≤ W) :
    windowStarts W N
      = ((List.range N).map (fun i : ℕ => 1 - (W : ℤ) + (i : ℤ)))
        ++ ((List.range (W - 1)).map (fun j : ℕ => 1 - (W : ℤ) + ((N : ℤ) + (j : ℤ)))) := by
  have h : N + W - 1 = N + (W - 1) := by omega
  rw [windowStarts, h, List.range_add, List.map_append, List.map_map]
  congr 1

/-- Over the whole window range, the per-frame setup guarded by
`window_end <= N` touches exactly the frames `0, …, N - 1`, once each, in
order. -/
theorem listBind_setup_frames (W N : ℕ) (hW : 1 ≤ W) :
    listBind (fun ws : ℤ => if ws + (W : ℤ) ≤ (N : ℤ) then [ws + W - 1] else [])
      (windowStarts W N) = (List.range N).map (fun i : ℕ => (i : ℤ)) := by
  rw [windowStarts_tail_split W N hW, listBind_append, listBind_map, listBind_map]
  have hA : listBind
      (fun i : ℕ => (fun ws : ℤ => if ws + (W : ℤ) ≤ (N : ℤ) then [ws + W - 1] else [])
        (1 - (W : ℤ) + (i : ℤ)))
      (List.range N) = (List.range N).map (fun i : ℕ => (i : ℤ)) := by
    rw [listBind_congr _ (fun i : ℕ => [(i : ℤ)]) _ (fun i hi => ?_), listBind_singleton]
    have hi2 := List.mem_range.mp hi
    simp only []
    rw [if_pos (by omega)]
    congr 1
    omega
  have hB : listBind
      (fun j : ℕ => (fun ws : ℤ => if ws + (W : ℤ) ≤ (N : ℤ) then [ws + W - 1] else [])
        (1 - (W : ℤ) + ((N : ℤ) + (j : ℤ))))
      (List.range (W - 1)) = [] := by
    rw [listBind_congr _ (fun _ : ℕ => ([] : List ℤ)) _ (fun j hj => ?_), listBind_const_nil]
    simp only []
    rw [if_neg (by omega)]
  rw [hA, hB, List.append_nil]

/-! ### C1 -/

/-- C1: with global optimization enabled, the driver iterates `window_start`
over exactly the integer range `[1 - W, N)`, and a run that executes the loop
commits/saves exactly the frames `0, …, N - 1`, each once, in strictly
increasing order with no gaps. -/
theorem c1_driver_commits_every_frame_once (W N : ℕ) (p simStart : ℤ) (u a : Bool)
    (hW : 1 ≤ W) :
    (∀ z : ℤ, z ∈ windowStarts W N ↔ 1 - (W : ℤ) ≤ z ∧ z < N) ∧
    committedOf (runDriver (some p) u simStart W N a) = List.range N := by
  refine ⟨fun z => windowStarts_mem W N z, ?_⟩
  rw [runDriver_some]
  show committedFrames (listBind (stepEvents p u simStart W N a) (windowStarts W N))
    = List.range N
  rw [committedFrames_listBind]
  rw [listBind_congr _ (fun ws : ℤ => if 0 ≤ ws then [ws.toNat] else []) _
    (fun ws _ => committedFrames_stepEvents p u simStart W N a ws)]
  rw [windowStarts_head_split W N hW, listBind_append, listBind_map, listBind_map]
  have hA : listBind
      (fun i : ℕ => (fun ws : ℤ => if 0 ≤ ws then [ws.toNat] else []) (1 - (W : ℤ) + (i : ℤ)))
      (List.range (W - 1)) = [] := by
    rw [listBind_congr _ (fun _ : ℕ => ([] : List ℕ)) _ (fun i hi => ?_), listBind_const_nil]
    have hi2 := List.mem_range.mp hi
    simp only []
    rw [if_neg (by omega)]
  have hB : listBind (fun i : ℕ => (fun ws : ℤ => if 0 ≤ ws then [ws.toNat] else []) ((i : ℤ)))
      (List.range N) = List.range N := by
    rw [listBind_congr _ (fun i : ℕ => [i]) _ (fun i _ => ?_)]
    · rw [listBind_singleton]
      simp
    · simp only []
      rw [if_pos (by omega)]
      simp
  rw [hA, hB, List.nil_append]

/-- C1 witness: a window of size 3 over 5 frames commits exactly the frames
0 through 4. -/
theorem c1_witness :
    1 ≤ 3 ∧ committedOf (runDriver (some 0) false 0 3 5 false) = List.range 5 :=
  ⟨by decide, (c1_driver_commits_every_frame_once 3 5 0 0 false false (by decide)).2⟩

/-! ### C2 -/

/-- C2 counterexample: with window size 3 over 5 frames and `sim_start = 0`,
the iteration at `window_start = 3` dispatches `global_optimize` with
`window_end = 6`, which lies outside the available frame range (`6 > 5`);
the dispatch guard is `window_start >= sim_start` (main.py:315), not
`window_end <= len(realimages)`. -/
theorem c2_counterexample :
    ((3 : ℤ), (6 : ℤ)) ∈ dispatchesOf (runDriver (some 0) false 0 3 5 false) ∧
      ¬ ((6 : ℤ) ≤ (5 : ℤ)) := by decide

/-- C2 (amended): `window_end` is `window_start + W` without clipping; the
per-frame setup (synthetic image generation and friends) runs only when
`window_end <= N`, covering each frame exactly once, but `global_optimize` is
dispatched for every `window_start >= sim_start` regardless of `window_end`,
so the last `W - 1` windows are dispatched with `window_end > N`. -/
theorem c2_dispatch_unclipped (W N : ℕ) (p simStart : ℤ) (u a : Bool) (hW : 1 ≤ W) :
    dispatchesOf (runDriver (some p) u simStart W N a)
      = (windowStarts W N).filterMap
          (fun ws : ℤ => if simStart ≤ ws then some (ws, ws + (W : ℤ)) else none) ∧
    (∀ pr ∈ dispatchesOf (runDriver (some p) u simStart W N a),
        pr.2 = pr.1 + (W : ℤ) ∧ simStart ≤ pr.1) ∧
    synthFramesOf (runDriver (some p) u simStart W N a)
      = (List.range N).map (fun i : ℕ => (i : ℤ)) := by
  have hchar : dispatchesOf (runDriver (some p) u simStart W N a)
      = (windowStarts W N).filterMap
          (fun ws : ℤ => if simStart ≤ ws then some (ws, ws + (W : ℤ)) else none) := by
    rw [runDriver_some]
    show dispatchPairs (listBind (stepEvents p u simStart W N a) (windowStarts W N)) = _
    rw [dispatchPairs_listBind, filterMap_eq_listBind]
    refine listBind_congr _ _ _ fun ws _ => ?_
    rw [dispatchPairs_stepEvents]
    by_cases h : simStart ≤ ws
    · simp [h]
    · simp [h]
  refine ⟨hchar, ?_, ?_⟩
  · intro pr hpr
    rw [hchar] at hpr
    rcases List.mem_filterMap.mp hpr with ⟨ws, _, heq⟩
    by_cases h : simStart ≤ ws
    · rw [if_pos h] at heq
      cases heq
      exact ⟨rfl, h⟩
    · rw [if_neg h] at heq
      cases heq
  · rw [runDriver_some]
    show synthFrames (listBind (stepEvents p u simStart W N a) (windowStarts W N)) = _
    rw [synthFrames_listBind]
    rw [listBind_congr _ (fun ws : ℤ => if ws + (W : ℤ) ≤ (N : ℤ) then [ws + W - 1] else []) _
      (fun ws _ => synthFrames_stepEvents p u simStart W N a ws)]
    exact listBind_setup_frames W N hW

/-- C2 witness: for window size 3 over 5 frames the setup covers exactly the
frames 0 through 4. -/
theorem c2_witness :
    1 ≤ 3 ∧ synthFramesOf (runDriver (some 0) false 0 3 5 false) = [0, 1, 2, 3, 4] :=
  ⟨by decide, ((c2_dispatch_unclipped 3 5 0 0 false false (by decide)).2.2).trans (by decide)⟩

/-! ### C3 -/

/-- C3: before any optimization runs, `sa_config` is derived from the loaded
configuration by dividing each of the ten `modification.*` perturbation
entries by `iteration_per_cell` and leaving every other perturbation entry
and every other field unchanged; the original configuration value is not
modified (the deep copy is modelled by building a new record from the old
one). -/
theorem c3_sa_config_scaling (cfg : Config) (h : cfg.iteration_per_cell ≠ 0) :
    deriveSaConfig cfg = Except.ok
      { cfg with perturbation := (cfg.perturbation.map
          (fun kv : String × ℚ =>
            if kv.1 ∈ keysToModify then (kv.1, kv.2 / cfg.iteration_per_cell) else kv)) } := by
  unfold deriveSaConfig
  have hs : ∀ pert : List (String × ℚ), scalePerturbation pert cfg.iteration_per_cell
      = Except.ok (pert.map (fun kv : String × ℚ =>
          if kv.1 ∈ keysToModify then (kv.1, kv.2 / cfg.iteration_per_cell) else kv)) := by
    intro pert
    induction pert with
    | nil => rfl
    | cons kv rest ih =>
      obtain ⟨k, v⟩ := kv
      by_cases hk : k ∈ keysToModify
      · simp [scalePerturbation, hk, h, ih]
      · simp [scalePerturbation, hk, ih]
  rw [hs cfg.perturbation]

/-- C3 witness: scaling `cfgEx` (iteration_per_cell = 2) halves the two
modifiable entries and keeps the unrelated entry. -/
theorem c3_witness :
    cfgEx.iteration_per_cell ≠ 0 ∧ deriveSaConfig cfgEx = Except.ok saCfgEx :=
  ⟨by decide, (c3_sa_config_scaling cfgEx (by decide)).trans
    (by norm_num [cfgEx, saCfgEx, pertEx, keysToModify]; decide)⟩

/-! ### C4 -/

/-- C4: the design document requires the `iteration_per_cell = 0` scenario to
complete with the committed cost equal to the baseline cost; instead the run
dies with `ZeroDivisionError` at the configuration-scaling loop (main.py:256)
before any optimization or commit, because the scaling divides a present
`modification.*` perturbation entry by `iteration_per_cell = 0`. -/
theorem c4_zero_iteration_per_cell_crashes :
    scalePerturbation cfgC4.perturbation cfgC4.iteration_per_cell
        = Except.error ScaleError.zeroDivision ∧
    mainRun argsC4 cfgC4 exSingle recEx noLocalRec 0 3 = Except.error MainError.scaleError := by
  decide

/-! ### C5 -/

theorem range_map_shift (i : ℤ) (k : ℕ) (hk : 1 ≤ k) :
    (List.range k).map (fun j : ℕ => i + (j : ℤ))
      = i :: (List.range (k - 1)).map (fun j : ℕ => (i + 1) + (j : ℤ)) := by
  obtain ⟨n, rfl⟩ : ∃ n, k = n + 1 := ⟨k - 1, by omega⟩
  rw [List.range_succ_eq_map]
  simp only [List.map_cons, List.map_map, Nat.cast_zero, add_zero, Nat.add_sub_cancel]
  congr 1
  refine List.map_congr_left fun j _ => ?_
  simp only [Function.comp_apply]
  push_cast
  ring

theorem inputLoop_error (ex : ℤ → Bool) (last first m : ℤ)
    (hmiss : ex m = false) (hm : m ≤ last) (hm0 : 0 ≤ m) :
    ∀ (fuel : ℕ) (i : ℤ) (acc : List ℤ), 0 ≤ i → i ≤ m →
      (∀ j : ℤ, i ≤ j → j < m → ex j = true) →
      (m - i).toNat + 1 ≤ fuel →
      inputLoop ex last first fuel i acc = Except.error (InputError.notFound m) := by
  intro fuel
  induction fuel with
  | zero => intro i acc _ _ _ hf; omega
  | succ n ih =>
    intro i acc h0 him hex hf
    simp only [inputLoop]
    by_cases hi : i = m
    · subst hi
      rw [if_neg (by simp [hmiss])]
      rw [if_neg (by rintro ⟨hl, -⟩; omega)]
    · have hexi : ex i = true := hex i le_rfl (by omega)
      rw [if_pos hexi, if_neg (show ¬ i = last by omega)]
      exact ih (i + 1) (acc ++ [i]) (by omega) (by omega)
        (fun j hj1 hj2 => hex j (by omega) hj2) (by omega)

theorem inputLoop_graceful (ex : ℤ → Bool) (first m : ℤ)
    (hmiss : ex m = false) (h0 : 0 ≤ first) :
    ∀ (fuel : ℕ) (i : ℤ) (acc : List ℤ), first < i → i ≤ m →
      (∀ j : ℤ, i ≤ j → j < m → ex j = true) →
      (m - i).toNat + 1 ≤ fuel →
      inputLoop ex (-1) first fuel i acc
        = Except.ok (acc ++ (List.range (m - i).toNat).map (fun j : ℕ => i + (j : ℤ))) := by
  intro fuel
  induction fuel with
  | zero => intro i acc _ _ _ hf; omega
  | succ n ih =>
    intro i acc hfi him hex hf
    simp only [inputLoop]
    by_cases hi : i = m
    · subst hi
      rw [if_neg (by simp [hmiss])]
      rw [if_pos ⟨by omega, by omega⟩]
      simp
    · have hexi : ex i = true := hex i le_rfl (by omega)
      rw [if_pos hexi, if_neg (show ¬ i = -1 by omega)]
      rw [ih (i + 1) (acc ++ [i]) (by omega) (by omega)
        (fun j hj1 hj2 => hex j (by omega) hj2) (by omega)]
      rw [range_map_shift i ((m - i).toNat) (by omega)]
      rw [show (m - i).toNat - 1 = (m - (i + 1)).toNat by omega]
      simp

/-- C5 (amended): a missing input file at or before an explicitly requested
last frame makes `get_inputfiles` fail with `Input file not found`; with
`frame_last = -1` it stops gracefully, returning exactly the consecutively
available frames — except that a missing first requested frame also raises
`Input file not found` even with `frame_last = -1` (main.py:141 requires
`frame_first != i` for the graceful exit), whereas the companion loader
`get_image_file_paths` returns an empty stack gracefully in that case. -/
theorem c5_input_discovery_amended (ex : ℤ → Bool) (exz : ℤ → ℕ → Bool)
    (first last m : ℤ) (k fuel : ℕ) :
    (0 ≤ first → first ≤ m → m ≤ last → ex m = false →
      (∀ j : ℤ, first ≤ j → j < m → ex j = true) →
      (m - first).toNat + 1 ≤ fuel →
      get_inputfiles ex first last fuel = Except.error (InputError.notFound m)) ∧
    (0 ≤ first → 1 ≤ k → ex (first + (k : ℤ)) = false →
      (∀ j : ℕ, j < k → ex (first + (j : ℤ)) = true) →
      k + 1 ≤ fuel →
      get_inputfiles ex first (-1) fuel
        = Except.ok ((List.range k).map (fun j : ℕ => first + (j : ℤ)))) ∧
    (0 ≤ first → ex first = false → 1 ≤ fuel →
      get_inputfiles ex first (-1) fuel = Except.error (InputError.notFound first)) ∧
    (zStackExists exz 1 first = false → 1 ≤ fuel →
      get_image_file_paths exz 1 first (-1) fuel = Except.ok []) := by
  refine ⟨?_, ?_, ?_, ?_⟩
  · intro h0 hfm hml hmiss hex hfuel
    rw [get_inputfiles, if_neg (by rintro ⟨h1, -⟩; omega), if_neg (by omega)]
    exact inputLoop_error ex last first m hmiss hml (by omega) fuel first []
      (by omega) hfm hex hfuel
  · intro h0 hk hmiss hex hfuel
    rw [get_inputfiles, if_neg (by rintro ⟨-, h2⟩; omega), if_neg (by omega)]
    obtain ⟨n, rfl⟩ : ∃ n, fuel = n + 1 := ⟨fuel - 1, by omega⟩
    simp only [inputLoop]
    have hex0 : ex first = true := by
      have := hex 0 (by omega)
      simpa using this
    rw [if_pos hex0, if_neg (show ¬ first = -1 by omega)]
    rw [inputLoop_graceful ex first (first + (k : ℤ)) hmiss h0 n (first + 1) ([] ++ [first])
      (by omega) (by omega)
      (fun j hj1 hj2 => by
        have := hex (j - first).toNat (by omega)
        have heq : first + (((j - first).toNat : ℕ) : ℤ) = j := by omega
        rwa [heq] at this)
      (by omega)]
    rw [range_map_shift first k hk]
    rw [show ((first + (k : ℤ)) - (first + 1)).toNat = k - 1 by omega]
    simp
  · intro h0 hmiss hfuel
    rw [get_inputfiles, if_neg (by rintro ⟨-, h2⟩; omega), if_neg (by omega)]
    obtain ⟨n, rfl⟩ : ∃ n, fuel = n + 1 := ⟨fuel - 1, by omega⟩
    simp only [inputLoop]
    rw [if_neg (by simp [hmiss]), if_neg (by rintro ⟨-, h⟩; exact h rfl)]
  · intro hmiss hfuel
    obtain ⟨n, rfl⟩ : ∃ n, fuel = n + 1 := ⟨fuel - 1, by omega⟩
    rw [get_image_file_paths]
    simp only [stackLoop]
    rw [if_pos (Or.inl trivial), if_neg (by simp [hmiss])]
    simp

/-- C5 counterexample: with `frame_last = -1` and the very first requested
frame missing, `get_inputfiles` raises `Input file not found` (main.py:144)
instead of stopping gracefully with the empty frame list. -/
theorem c5_counterexample :
    get_inputfiles exNone 0 (-1) 5 = Except.error (InputError.notFound 0) ∧
      get_inputfiles exNone 0 (-1) 5 ≠ Except.ok [] := by decide

/-- C5 witness: the three `get_inputfiles` behaviors and the graceful
`get_image_file_paths` behavior at concrete inputs. -/
theorem c5_witness :
    get_inputfiles exLt2 0 3 4 = Except.error (InputError.notFound 2) ∧
    get_inputfiles exLt2 0 (-1) 4 = Except.ok [0, 1] ∧
    get_inputfiles exNone 1 (-1) 3 = Except.error (InputError.notFound 1) ∧
    get_image_file_paths exzNone 1 0 (-1) 3 = Except.ok [] := by
  refine ⟨(c5_input_discovery_amended exLt2 exzNone 0 3 2 0 4).1 (by decide) (by decide)
      (by decide) (by decide)
      (fun j h1 h2 => by simp only [exLt2, decide_eq_true_eq]; omega) (by decide),
    ((c5_input_discovery_amended exLt2 exzNone 0 (-1) 0 2 4).2.1 (by decide) (by decide)
      (by decide)
      (fun j hj => by simp only [exLt2, decide_eq_true_eq]; omega)
      (by decide)).trans (by decide),
    (c5_input_discovery_amended exNone exzNone 1 (-1) 0 0 3).2.2.1 (by decide) (by decide)
      (by decide),
    (c5_input_discovery_amended exNone exzNone 0 (-1) 0 0 3).2.2.2 (by decide) (by decide)⟩

/-! ### C6 -/

/-- C6: with the distance objective selected, the driver computes exactly one
distance map per frame (one `distCompute` event per frame index, in order),
and the map value at every pixel — the Euclidean distance transform of
`realimage < 0.5` divided by `distanceCostDivisor * pixelsPerMicron` and then
incremented by 1 — is at least 1 whenever the divisor and the
pixels-per-micron scale are positive. -/
theorem c6_distance_map (W N : ℕ) (p simStart : ℤ) (a : Bool) (divisor ppm : ℚ)
    (hW : 1 ≤ W) (hd : 0 < divisor) (hp : 0 < ppm) :
    distFramesOf (runDriver (some p) true simStart W N a)
      = (List.range N).map (fun i : ℕ => (i : ℤ)) ∧
    ∀ (h w : ℕ) (img : Fin h → Fin w → ℚ) (q : Fin h × Fin w),
      1 ≤ distmapOf img divisor ppm q := by
  constructor
  · rw [runDriver_some]
    show distFrames (listBind (stepEvents p true simStart W N a) (windowStarts W N)) = _
    rw [distFrames_listBind]
    rw [listBind_congr _ (fun ws : ℤ => if ws + (W : ℤ) ≤ (N : ℤ) then [ws + W - 1] else []) _
      (fun ws _ => by rw [distFrames_stepEvents]; simp)]
    exact listBind_setup_frames W N hW
  · intro h w img q
    unfold distmapOf
    have hd2 : (0 : ℝ) < (divisor : ℝ) := by exact_mod_cast hd
    have hp2 : (0 : ℝ) < (ppm : ℝ) := by exact_mod_cast hp
    have h2 : 0 ≤ Real.sqrt (edtSqVal img q) / ((divisor : ℝ) * (ppm : ℝ)) :=
      div_nonneg (Real.sqrt_nonneg _) (le_of_lt (mul_pos hd2 hp2))
    linarith

/-- C6 witness: a single-frame distance run computes one map, and on a bright
1 × 1 image the map value is 1 ≥ 1. -/
theorem c6_witness :
    1 ≤ 1 ∧ (0 : ℚ) < 2 ∧ (0 : ℚ) < 3 ∧
    distFramesOf (runDriver (some 0) true 0 1 1 false) = [0] ∧
    1 ≤ distmapOf imgOne 2 3 pixOne := by
  have h := c6_distance_map 1 1 0 0 false 2 3 (by decide) (by decide) (by decide)
  exact ⟨by decide, by decide, by decide, h.1.trans (by decide), h.2 1 1 imgOne pixOne⟩

/-! ### C7 -/

/-- C7: for a bacilli run, the first line of `lineage.csv` is exactly the
header `file,name,x,y,width,length,rotation,split_alpha,opacity`, written
once before any committed frame's records. -/
theorem c7_lineage_header (args : Args) (cfg : Config) (ex : ℤ → Bool)
    (recs : ℕ → ℕ → List String) (localRec : ℕ → List String)
    (startMs fuel : ℕ) (out : MainOutput)
    (hb : cfg.cellType = "bacilli")
    (hok : mainRun args cfg ex recs localRec startMs fuel = Except.ok out) :
    headerLine cfg.cellType = "file,name,x,y,width,length,rotation,split_alpha,opacity" ∧
    out.log.head? = some (headerLine cfg.cellType) := by
  have hb2 : headerLine cfg.cellType
      = "file,name,x,y,width,length,rotation,split_alpha,opacity" := by
    rw [hb]
    rfl
  refine ⟨hb2, ?_⟩
  simp only [mainRun] at hok
  repeat' split at hok
  all_goals first
    | exact Except.noConfusion hok
    | (injection hok with h2; subst h2; rfl)

/-- C7 witness: a concrete completing bacilli run whose log starts with the
header line. -/
theorem c7_witness :
    cfgC7.cellType = "bacilli" ∧
    mainRun argsC7 cfgC7 exSingle recEx noLocalRec 0 3 = Except.ok outC7 ∧
    outC7.log.head? = some (headerLine cfgC7.cellType) := by
  have hok : mainRun argsC7 cfgC7 exSingle recEx noLocalRec 0 3 = Except.ok outC7 := by decide
  exact ⟨rfl, hok,
    (c7_lineage_header argsC7 cfgC7 exSingle recEx noLocalRec 0 3 outC7 rfl hok).2⟩

/-! ### C8 -/

/-- C8: with an explicitly supplied seed, the run's outcome — in particular
the lineage log — does not depend on the wall-clock start time; two runs with
identical configuration, inputs, record functions and fuel produce identical
results.  The per-frame records are modelled (per the design document) as a
deterministic function of the effective seed, which an explicit `--seed`
fixes. -/
theorem c8_fixed_seed_reproducibility (args : Args) (cfg : Config) (ex : ℤ → Bool)
    (recs : ℕ → ℕ → List String) (localRec : ℕ → List String)
    (t1 t2 fuel s : ℕ) (hs : args.seed = some s) :
    mainRun args cfg ex recs localRec t1 fuel = mainRun args cfg ex recs localRec t2 fuel := by
  simp only [mainRun, effectiveSeed, hs]

/-- C8 witness: two runs with seed 42 and different start times coincide. -/
theorem c8_witness :
    argsC8.seed = some 42 ∧
    mainRun argsC8 cfgC7 exSingle recEx noLocalRec 0 3
      = mainRun argsC8 cfgC7 exSingle recEx noLocalRec 999 3 :=
  ⟨rfl, c8_fixed_seed_reproducibility argsC8 cfgC7 exSingle recEx noLocalRec 0 999 3 42 rfl⟩

/-! ### C9 -/

/-- C9: when the simulation configuration lacks a `padding` key, the `pad`
local is never bound, and the first window iteration (whose `window_end` is
`1 ≤ N`) reads it inside the setup block (main.py:291): the run dies with an
`UnboundLocalError` before any frame is committed. -/
theorem c9_unbound_pad (W N : ℕ) (u a : Bool) (s : ℤ) (hW : 1 ≤ W) (hN : 1 ≤ N) :
    driverStep none u s W N a (1 - (W : ℤ)) = Except.error DriverError.unboundPad ∧
    runDriver none u s W N a = Except.error DriverError.unboundPad ∧
    committedOf (runDriver none u s W N a) = [] := by
  have hstep : driverStep none u s W N a (1 - (W : ℤ))
      = Except.error DriverError.unboundPad := by
    rw [driverStep, if_pos (by omega)]
  have hrun : runDriver none u s W N a = Except.error DriverError.unboundPad := by
    rw [runDriver]
    obtain ⟨n, hn⟩ : ∃ n, N + W - 1 = n + 1 := ⟨N + W - 2, by omega⟩
    rw [windowStarts, hn, List.range_succ_eq_map, List.map_cons]
    simp only [Nat.cast_zero, add_zero, driverLoop]
    rw [hstep]
  exact ⟨hstep, hrun, by simp [committedOf, hrun]⟩

/-- C9 witness: a windowed run over one frame with no padding key fails with
the unbound `pad` error. -/
theorem c9_witness :
    1 ≤ 1 ∧ runDriver none false 0 1 1 false = Except.error DriverError.unboundPad :=
  ⟨by decide, (c9_unbound_pad 1 1 false false 0 (by decide) (by decide)).2.1⟩

/-! ### C10 -/

/-- C10: when `auto_temp = 1` (its default) and a manual start or end
temperature is supplied, `main` raises before loading the configuration or
touching any input (the result does not depend on the configuration, the
input files, or any other argument), so no output is produced. -/
theorem c10_manual_temp_with_auto_temp_aborts (args : Args) (cfg : Config) (ex : ℤ → Bool)
    (recs : ℕ → ℕ → List String) (localRec : ℕ → List String) (t fuel : ℕ)
    (h1 : args.auto_temp = 1)
    (h2 : args.start_temp.isSome = true ∨ args.end_temp.isSome = true) :
    mainRun args cfg ex recs localRec t fuel = Except.error MainError.tempConflict := by
  have hc : tempArgsConflict args = true := by
    rw [tempArgsConflict]
    rcases h2 with h | h <;> simp [h, h1]
  rw [mainRun, if_pos hc]

/-- C10 witness: `auto_temp = 1` with a manual start temperature aborts the
run before anything is written. -/
theorem c10_witness :
    argsC10.auto_temp = 1 ∧ argsC10.start_temp.isSome = true ∧
    mainRun argsC10 cfgC7 exNone recEx noLocalRec 7 2 = Except.error MainError.tempConflict :=
  ⟨rfl, rfl,
    c10_manual_temp_with_auto_temp_aborts argsC10 cfgC7 exNone recEx noLocalRec 7 2 rfl
      (Or.inl rfl)⟩

end CellUniverse
